import Mathlib

/-!
Verification of the Supermaven message protocol crates
(`crates/supermaven/src/messages.rs` and
`crates/supermaven_api/src/supermaven_api.rs`).

The Rust types are `serde`-derived; we shallowly embed their JSON
serialization/deserialization semantics over an explicit `Json` value type.
Numbers are modelled as `Int` (floating-point payloads do not occur in any
property under scrutiny), and byte-level details (UTF-8 validity, JSON text
parsing) are abstracted into a `Body` type that records whether the body was
valid UTF-8 / valid JSON.
-/

namespace Supermaven

/-- A JSON value.  Objects keep their fields as an ordered association list,
exactly as `serde_json` visits map entries. -/
inductive Json where
  | null : Json
  | bool : Bool → Json
  | num  : Int → Json
  | str  : String → Json
  | arr  : List Json → Json
  | obj  : List (String × Json) → Json
deriving Repr

/-- First value bound to `key` in an object's field list (serde's tagged
visitors use the first occurrence of the tag field). -/
def getField : List (String × Json) → String → Option Json
  | [], _ => none
  | (k, v) :: rest, key => if k = key then some v else getField rest key

/-- Remove the first field named `key` (serde's internally-tagged
deserializer consumes the tag field and hands the remaining fields to the
variant's deserializer). -/
def removeField : List (String × Json) → String → List (String × Json)
  | [], _ => []
  | (k, v) :: rest, key => if k = key then rest else (k, v) :: removeField rest key

/-- Decode errors: the shallow embedding of `serde_json`'s error values.
`unknownMessageKind` embeds the "unknown variant" error produced when a tag
field holds an unrecognized value, and carries that tag; `duplicateField`
embeds the "duplicate field" error the tagged-content visitor raises when
the tag field occurs twice; `shapeMismatch` covers missing fields / wrong
JSON types; `recursionLimit` embeds `serde_json`'s bounded-recursion
failure. -/
inductive DecodeError where
  | unknownMessageKind (tag : String) : DecodeError
  | duplicateField (name : String) : DecodeError
  | shapeMismatch : DecodeError
  | recursionLimit : DecodeError
  | passthroughTooDeep : DecodeError
deriving Repr, DecidableEq

/-- Whether an object's field list binds `key` at all (used for serde's
duplicate-tag-field detection). -/
def hasField (fields : List (String × Json)) (key : String) : Bool :=
  (getField fields key).isSome

/-- Required string field of a struct (serde: missing or non-string fails). -/
def getStr (fields : List (String × Json)) (key : String) : Except DecodeError String :=
  match getField fields key with
  | some (.str s) => .ok s
  | _ => .error .shapeMismatch

/-- Required non-negative integer field (Rust `usize`). -/
def getNat (fields : List (String × Json)) (key : String) : Except DecodeError Nat :=
  match getField fields key with
  | some (.num n) => if n < 0 then .error .shapeMismatch else .ok n.toNat
  | _ => .error .shapeMismatch

/-- `Option<String>` field: serde treats a missing field and `null` as
`None`. -/
def getOptStr (fields : List (String × Json)) (key : String) :
    Except DecodeError (Option String) :=
  match getField fields key with
  | none => .ok none
  | some .null => .ok none
  | some (.str s) => .ok (some s)
  | some _ => .error .shapeMismatch

/-- `Option<f32>`-style numeric field (numbers modelled as `Int`). -/
def getOptNum (fields : List (String × Json)) (key : String) :
    Except DecodeError (Option Int) :=
  match getField fields key with
  | none => .ok none
  | some .null => .ok none
  | some (.num n) => .ok (some n)
  | some _ => .error .shapeMismatch

/-- Decode a JSON value that must be a string. -/
def asStr : Json → Except DecodeError String
  | .str s => .ok s
  | _ => .error .shapeMismatch

/-- Decode every element of a JSON sequence (serde decodes `Vec<T>`
elementwise, failing on the first bad element). -/
def decodeListWith (dec : Json → Except DecodeError α) :
    List Json → Except DecodeError (List α)
  | [] => .ok []
  | x :: xs => do
    let a ← dec x
    let as ← decodeListWith dec xs
    .ok (a :: as)

/-- `Option<Vec<String>>` field. -/
def getOptStrList (fields : List (String × Json)) (key : String) :
    Except DecodeError (Option (List String)) :=
  match getField fields key with
  | none => .ok none
  | some .null => .ok none
  | some (.arr xs) => do
    let ss ← decodeListWith asStr xs
    .ok (some ss)
  | some _ => .error .shapeMismatch

/-! ## Outbound messages (`messages.rs`) -/

/-- `enum StateUpdateKind { StateUpdate }` with
`#[serde(rename_all = "snake_case")]`. -/
inductive StateUpdateKind where
  | StateUpdate : StateUpdateKind
deriving Repr, DecidableEq

/-- `struct FileUpdateMessage { path: String, content: String }` with
`#[serde(rename_all = "snake_case")]`. -/
structure FileUpdateMessage where
  path : String
  content : String
deriving Repr, DecidableEq

/-- `struct CursorPositionUpdateMessage { path: String, offset: usize }`
with `#[serde(rename_all = "snake_case")]`. -/
structure CursorPositionUpdateMessage where
  path : String
  offset : Nat
deriving Repr, DecidableEq

/-- `enum StateUpdate` with `#[serde(tag = "kind", rename_all = "snake_case")]`:
newtype variants `FileUpdate(FileUpdateMessage)` and
`CursorPositionUpdate(CursorPositionUpdateMessage)`. -/
inductive StateUpdate where
  | FileUpdate : FileUpdateMessage → StateUpdate
  | CursorPositionUpdate : CursorPositionUpdateMessage → StateUpdate
deriving Repr, DecidableEq

/-- `struct StateUpdateMessage { kind: StateUpdateKind, new_id: String,
updates: Vec<StateUpdate> }`. -/
structure StateUpdateMessage where
  kind : StateUpdateKind
  new_id : String
  updates : List StateUpdate
deriving Repr, DecidableEq

/-- Serialization of `StateUpdateKind`: the sole unit variant `StateUpdate`
is renamed to snake case, producing the JSON string `"state_update"`. -/
def encodeStateUpdateKind : StateUpdateKind → Json
  | .StateUpdate => .str "state_update"

/-- Externally-tagged deserialization of the unit variant: `serde_json`
accepts both the bare string `"state_update"` and the single-key map form
`{"state_update": null}`. -/
def decodeStateUpdateKind : Json → Except DecodeError StateUpdateKind
  | .str s =>
    if s = "state_update" then .ok .StateUpdate
    else .error (.unknownMessageKind s)
  | .obj [(k, v)] =>
    if k = "state_update" then
      (match v with
       | .null => .ok .StateUpdate
       | _ => .error .shapeMismatch)
    else .error (.unknownMessageKind k)
  | _ => .error .shapeMismatch

/-- Serde struct serialization: fields in declaration order, snake-case
names (already snake case in the source). -/
def encodeFileUpdateMessage (m : FileUpdateMessage) : Json :=
  .obj [("path", .str m.path), ("content", .str m.content)]

def decodeFileUpdateMessage : Json → Except DecodeError FileUpdateMessage
  | .obj fields => do
    let path ← getStr fields "path"
    let content ← getStr fields "content"
    .ok ⟨path, content⟩
  | _ => .error .shapeMismatch

def encodeCursorPositionUpdateMessage (m : CursorPositionUpdateMessage) : Json :=
  .obj [("path", .str m.path), ("offset", .num m.offset)]

def decodeCursorPositionUpdateMessage :
    Json → Except DecodeError CursorPositionUpdateMessage
  | .obj fields => do
    let path ← getStr fields "path"
    let offset ← getNat fields "offset"
    .ok ⟨path, offset⟩
  | _ => .error .shapeMismatch

/-- Internally-tagged serialization of `StateUpdate` (`tag = "kind"`,
snake-case variant names): the wrapped struct's fields flattened behind the
tag field. -/
def encodeStateUpdate : StateUpdate → Json
  | .FileUpdate m =>
    .obj (("kind", .str "file_update") :: [("path", .str m.path), ("content", .str m.content)])
  | .CursorPositionUpdate m =>
    .obj (("kind", .str "cursor_position_update") :: [("path", .str m.path), ("offset", .num m.offset)])

/-- Internally-tagged deserialization of `StateUpdate`: read the `kind`
field, dispatch on its value, hand the remaining fields to the variant's
struct deserializer; an unrecognized value is the unknown-variant error. -/
def decodeStateUpdate : Json → Except DecodeError StateUpdate
  | .obj fields =>
    match getField fields "kind" with
    | some (.str tag) =>
      let rest := Json.obj (removeField fields "kind")
      if tag = "file_update" then
        (decodeFileUpdateMessage rest).map .FileUpdate
      else if tag = "cursor_position_update" then
        (decodeCursorPositionUpdateMessage rest).map .CursorPositionUpdate
      else .error (.unknownMessageKind tag)
    | _ => .error .shapeMismatch
  | _ => .error .shapeMismatch

def encodeStateUpdateMessage (m : StateUpdateMessage) : Json :=
  .obj [("kind", encodeStateUpdateKind m.kind),
        ("new_id", .str m.new_id),
        ("updates", .arr (m.updates.map encodeStateUpdate))]

def decodeStateUpdateMessage : Json → Except DecodeError StateUpdateMessage
  | .obj fields => do
    let kind ← match getField fields "kind" with
      | some j => decodeStateUpdateKind j
      | none => .error .shapeMismatch
    let new_id ← getStr fields "new_id"
    let updates ← match getField fields "updates" with
      | some (.arr xs) => decodeListWith decodeStateUpdate xs
      | _ => .error .shapeMismatch
    .ok ⟨kind, new_id, updates⟩
  | _ => .error .shapeMismatch

/-! ## Inbound messages (`messages.rs`) -/

/-- Modelled from the spec: `SupermavenStateId` is defined in the crate
root (not among the message sources); the spec describes it as an opaque
identifier "originally a loosely-typed string wrapper", so it is embedded
as a string. -/
def SupermavenStateId := String
deriving Repr, DecidableEq

/-- `enum ResponseItem { Text(String), Del(String), Dedent(String), End,
Barrier }` — no serde attributes, hence externally tagged with the variant
names as written (PascalCase). -/
inductive ResponseItem where
  | Text : String → ResponseItem
  | Del : String → ResponseItem
  | Dedent : String → ResponseItem
  | End : ResponseItem
  | Barrier : ResponseItem
deriving Repr, DecidableEq

/-- External tagging: a newtype variant serializes as a single-key object
`{"Variant": value}`; a unit variant serializes as the bare string
`"Variant"` (on deserialization `serde_json` additionally accepts the
single-key map form `{"Variant": null}` for unit variants). -/
def encodeResponseItem : ResponseItem → Json
  | .Text s => .obj [("Text", .str s)]
  | .Del s => .obj [("Del", .str s)]
  | .Dedent s => .obj [("Dedent", .str s)]
  | .End => .str "End"
  | .Barrier => .str "Barrier"

def decodeResponseItem : Json → Except DecodeError ResponseItem
  | .str s =>
    if s = "End" then .ok .End
    else if s = "Barrier" then .ok .Barrier
    else if s = "Text" ∨ s = "Del" ∨ s = "Dedent" then .error .shapeMismatch
    else .error (.unknownMessageKind s)
  | .obj [(k, v)] =>
    if k = "Text" then (asStr v).map .Text
    else if k = "Del" then (asStr v).map .Del
    else if k = "Dedent" then (asStr v).map .Dedent
    else if k = "End" then
      (match v with
       | .null => .ok .End
       | _ => .error .shapeMismatch)
    else if k = "Barrier" then
      (match v with
       | .null => .ok .Barrier
       | _ => .error .shapeMismatch)
    else .error (.unknownMessageKind k)
  | _ => .error .shapeMismatch

/-- `struct SupermavenResponse { state_id: SupermavenStateId,
items: Vec<ResponseItem> }`. -/
structure SupermavenResponse where
  state_id : SupermavenStateId
  items : List ResponseItem
deriving Repr, DecidableEq

def decodeSupermavenResponse : Json → Except DecodeError SupermavenResponse
  | .obj fields => do
    let state_id ← getStr fields "state_id"
    let items ← match getField fields "items" with
      | some (.arr xs) => decodeListWith decodeResponseItem xs
      | _ => .error .shapeMismatch
    .ok ⟨state_id, items⟩
  | _ => .error .shapeMismatch

/-- `struct SupermavenMetadataMessage { dust_strings: Option<Vec<String>> }`. -/
structure SupermavenMetadataMessage where
  dust_strings : Option (List String)
deriving Repr, DecidableEq

def decodeSupermavenMetadataMessage :
    Json → Except DecodeError SupermavenMetadataMessage
  | .obj fields => do
    let ds ← getOptStrList fields "dust_strings"
    .ok ⟨ds⟩
  | _ => .error .shapeMismatch

/-- `enum TaskStatus { InProgress, Complete }` — externally tagged unit
variants: `serde_json` accepts the bare strings `"InProgress"` /
`"Complete"` and the single-key map forms `{"InProgress": null}` /
`{"Complete": null}`. -/
inductive TaskStatus where
  | InProgress : TaskStatus
  | Complete : TaskStatus
deriving Repr, DecidableEq

def decodeTaskStatus : Json → Except DecodeError TaskStatus
  | .str s =>
    if s = "InProgress" then .ok .InProgress
    else if s = "Complete" then .ok .Complete
    else .error (.unknownMessageKind s)
  | .obj [(k, v)] =>
    if k = "InProgress" then
      (match v with
       | .null => .ok .InProgress
       | _ => .error .shapeMismatch)
    else if k = "Complete" then
      (match v with
       | .null => .ok .Complete
       | _ => .error .shapeMismatch)
    else .error (.unknownMessageKind k)
  | _ => .error .shapeMismatch

/-- `struct SupermavenTaskUpdateMessage { task: String, status: TaskStatus,
percent_complete: Option<f32> }` (the float payload is modelled as `Int`). -/
structure SupermavenTaskUpdateMessage where
  task : String
  status : TaskStatus
  percent_complete : Option Int
deriving Repr, DecidableEq

def decodeSupermavenTaskUpdateMessage :
    Json → Except DecodeError SupermavenTaskUpdateMessage
  | .obj fields => do
    let task ← getStr fields "task"
    let status ← match getField fields "status" with
      | some j => decodeTaskStatus j
      | none => .error .shapeMismatch
    let pc ← getOptNum fields "percent_complete"
    .ok ⟨task, status, pc⟩
  | _ => .error .shapeMismatch

/-- `struct SupermavenActiveRepoMessage { repo_simple_name: String }`. -/
structure SupermavenActiveRepoMessage where
  repo_simple_name : String
deriving Repr, DecidableEq

def decodeSupermavenActiveRepoMessage :
    Json → Except DecodeError SupermavenActiveRepoMessage
  | .obj fields => do
    let n ← getStr fields "repo_simple_name"
    .ok ⟨n⟩
  | _ => .error .shapeMismatch

/-- `enum SupermavenPopupAction { OpenUrl { label, url }, NoOp { label } }`
— externally tagged struct variants. -/
inductive SupermavenPopupAction where
  | OpenUrl : String → String → SupermavenPopupAction
  | NoOp : String → SupermavenPopupAction
deriving Repr, DecidableEq

def decodeSupermavenPopupAction : Json → Except DecodeError SupermavenPopupAction
  | .obj [(k, v)] =>
    if k = "OpenUrl" then
      match v with
      | .obj f => do
        let label ← getStr f "label"
        let url ← getStr f "url"
        .ok (.OpenUrl label url)
      | _ => .error .shapeMismatch
    else if k = "NoOp" then
      match v with
      | .obj f => do
        let label ← getStr f "label"
        .ok (.NoOp label)
      | _ => .error .shapeMismatch
    else .error (.unknownMessageKind k)
  | _ => .error .shapeMismatch

/-- `struct SupermavenPopupMessage { message: String,
actions: Vec<SupermavenPopupAction> }`. -/
structure SupermavenPopupMessage where
  message : String
  actions : List SupermavenPopupAction
deriving Repr, DecidableEq

def decodeSupermavenPopupMessage : Json → Except DecodeError SupermavenPopupMessage
  | .obj fields => do
    let message ← getStr fields "message"
    let actions ← match getField fields "actions" with
      | some (.arr xs) => decodeListWith decodeSupermavenPopupAction xs
      | _ => .error .shapeMismatch
    .ok ⟨message, actions⟩
  | _ => .error .shapeMismatch

/-- `enum SupermavenMessage` with
`#[serde(tag = "kind", rename_all = "snake_case")]`: the nine inbound
message variants (`Box` on `Passthrough` disappears in the embedding). -/
inductive SupermavenMessage where
  | Response : SupermavenResponse → SupermavenMessage
  | Metadata : SupermavenMetadataMessage → SupermavenMessage
  | Apology : Option String → SupermavenMessage
  | ActivationRequest : String → SupermavenMessage
  | ActivationSuccess : SupermavenMessage
  | Passthrough : SupermavenMessage → SupermavenMessage
  | Popup : SupermavenPopupMessage → SupermavenMessage
  | TaskStatus : SupermavenTaskUpdateMessage → SupermavenMessage
  | ActiveRepo : SupermavenActiveRepoMessage → SupermavenMessage
deriving Repr, DecidableEq

/-- The `kind`-tag values of the nine `SupermavenMessage` variants
(snake-cased variant names, per `rename_all = "snake_case"`). -/
def supermavenKinds : List String :=
  ["response", "metadata", "apology", "activation_request",
   "activation_success", "passthrough", "popup", "task_status", "active_repo"]

/-- The tag dispatch of the internally-tagged `SupermavenMessage`
deserializer: match the `kind` value against the nine variant tags and
hand the remaining fields (`rest`) to the matching variant's deserializer
(recursively for `Passthrough`, via `recur`); any other tag value is the
unknown-variant error carrying that tag. -/
def dispatchKind (recur : Json → Except DecodeError SupermavenMessage)
    (tag : String) (rest : Json) : Except DecodeError SupermavenMessage :=
  if tag = "response" then (decodeSupermavenResponse rest).map .Response
  else if tag = "metadata" then (decodeSupermavenMetadataMessage rest).map .Metadata
  else if tag = "apology" then
    match rest with
    | .obj f => (getOptStr f "message").map .Apology
    | _ => .error .shapeMismatch
  else if tag = "activation_request" then
    match rest with
    | .obj f => (getStr f "activate_url").map .ActivationRequest
    | _ => .error .shapeMismatch
  else if tag = "activation_success" then .ok .ActivationSuccess
  else if tag = "passthrough" then (recur rest).map .Passthrough
  else if tag = "popup" then (decodeSupermavenPopupMessage rest).map .Popup
  else if tag = "task_status" then (decodeSupermavenTaskUpdateMessage rest).map .TaskStatus
  else if tag = "active_repo" then (decodeSupermavenActiveRepoMessage rest).map .ActiveRepo
  else .error (.unknownMessageKind tag)

/-- One step of the internally-tagged `SupermavenMessage` deserializer,
mirroring serde's tagged-content visitor: the first `kind` value is parsed
as the variant tag (an unrecognized value fails with the unknown-variant
error right there); a second `kind` key then fails with the
duplicate-field error; otherwise the remaining fields are handed to the
recognized variant's deserializer.  (Consequently `Passthrough` is
undecodable: its content would need its own `kind`, which is either a
rejected duplicate or missing.) -/
def decodeMsgStep (recur : Json → Except DecodeError SupermavenMessage) :
    Json → Except DecodeError SupermavenMessage
  | .obj fields =>
    match getField fields "kind" with
    | some (.str tag) =>
      if tag ∈ supermavenKinds then
        if hasField (removeField fields "kind") "kind" then
          .error (.duplicateField "kind")
        else dispatchKind recur tag (.obj (removeField fields "kind"))
      else .error (.unknownMessageKind tag)
    | _ => .error .shapeMismatch
  | _ => .error .shapeMismatch

/-- The value of an object's `kind` tag field, when it is a string. -/
def kindTag : Json → Option String
  | .obj fields =>
    match getField fields "kind" with
    | some (.str t) => some t
    | _ => none
  | _ => none

/-- Fuelled deserializer (the recursion through `Passthrough` mirrors
`serde_json`'s bounded recursion). -/
def decodeSupermavenMessageFuel : Nat → Json → Except DecodeError SupermavenMessage
  | 0, _ => .error .recursionLimit
  | fuel + 1, j => decodeMsgStep (decodeSupermavenMessageFuel fuel) j

/-- Deserialize one inbound line's JSON value as a `SupermavenMessage`
(`serde_json`'s default recursion limit is 128). -/
def decodeSupermavenMessage (j : Json) : Except DecodeError SupermavenMessage :=
  decodeSupermavenMessageFuel 128 j

/-! ## Admin API client (`supermaven_api.rs`) -/

/-- `struct CreateApiKeyResponse { api_key: String }` with
`#[serde(rename_all = "camelCase")]`: the wire field is `apiKey`. -/
structure CreateApiKeyResponse where
  api_key : String
deriving Repr, DecidableEq

def decodeCreateApiKeyResponse : Json → Except DecodeError CreateApiKeyResponse
  | .obj fields => do
    let k ← getStr fields "apiKey"
    .ok ⟨k⟩
  | _ => .error .shapeMismatch

/-- `enum SupermavenUser { NotFound, Found { id, email, api_key } }` — no
serde attributes, externally tagged. -/
inductive SupermavenUser where
  | NotFound : SupermavenUser
  | Found : String → String → String → SupermavenUser
deriving Repr, DecidableEq

def decodeSupermavenUser : Json → Except DecodeError SupermavenUser
  | .str "NotFound" => .ok .NotFound
  | .obj [(k, v)] =>
    if k = "NotFound" then
      match v with
      | .null => .ok .NotFound
      | _ => .error .shapeMismatch
    else if k = "Found" then
      match v with
      | .obj f => do
        let id ← getStr f "id"
        let email ← getStr f "email"
        let api_key ← getStr f "api_key"
        .ok (.Found id email api_key)
      | _ => .error .shapeMismatch
    else .error (.unknownMessageKind k)
  | _ => .error .shapeMismatch

/-- The HTTP response body as the client's parsing pipeline sees it:
either invalid UTF-8 (so `std::str::from_utf8` fails), valid UTF-8 that is
not a JSON document (so `serde_json::from_str` fails before any shape
check), or a parsed JSON value. -/
inductive Body where
  | invalidUtf8 : Body
  | notJson : Body
  | json : Json → Body
deriving Repr

/-- A delivered HTTP response: numeric status code plus body. -/
structure HttpResponse where
  status : Nat
  body : Body
deriving Repr

/-- Errors surfaced by the API client after a response was delivered. -/
inductive ApiError where
  | utf8Error : ApiError
  | parseError : ApiError
deriving Repr, DecidableEq

/-- `http::StatusCode::is_client_error`: 400–499. -/
def isClientError (status : Nat) : Bool :=
  400 ≤ status && status < 500

/-- `try_get_user`, from the delivered response onward: if the status is a
4xx client error, return `Ok(SupermavenUser::NotFound)` without looking at
the body; otherwise decode the body as a `SupermavenUser`
(UTF-8 then JSON then shape). -/
def tryGetUser (resp : HttpResponse) : Except ApiError SupermavenUser :=
  if isClientError resp.status then .ok .NotFound
  else
    match resp.body with
    | .invalidUtf8 => .error .utf8Error
    | .notJson => .error .parseError
    | .json j =>
      match decodeSupermavenUser j with
      | .ok u => .ok u
      | .error _ => .error .parseError

/-- `try_create_api_key`, from the delivered response onward: the status
is never inspected; the body is decoded as a `CreateApiKeyResponse`
(UTF-8 then JSON then shape). -/
def tryCreateApiKey (resp : HttpResponse) : Except ApiError CreateApiKeyResponse :=
  match resp.body with
  | .invalidUtf8 => .error .utf8Error
  | .notJson => .error .parseError
  | .json j =>
    match decodeCreateApiKeyResponse j with
    | .ok r => .ok r
    | .error _ => .error .parseError

/-! ## Passthrough unwrapping (modelled from the spec) -/

/-- Modelled from the spec: the `Passthrough` unwrapping routine is not
among the message sources (only the `Passthrough(Box<SupermavenMessage>)`
declaration is); per the spec, unwrapping recursively strips `Passthrough`
wrappers before routing, with the recursion depth capped at 16, failing
with `PassthroughTooDeep` beyond the cap. -/
def passthroughDepthCap : Nat := 16

/-- Modelled from the spec: strip up to `fuel` `Passthrough` wrappers;
a wrapper encountered with no fuel left is `PassthroughTooDeep`. -/
def unwrapPassthroughAux : Nat → SupermavenMessage → Except DecodeError SupermavenMessage
  | fuel, .Passthrough inner =>
    match fuel with
    | 0 => .error .passthroughTooDeep
    | f + 1 => unwrapPassthroughAux f inner
  | _, m => .ok m

/-- Modelled from the spec: depth-capped `Passthrough` unwrapping. -/
def unwrapPassthrough (m : SupermavenMessage) : Except DecodeError SupermavenMessage :=
  unwrapPassthroughAux passthroughDepthCap m

/-- Wrap a message in `n` `Passthrough` layers (a chain of nesting depth
`n`). -/
def nestPassthrough : Nat → SupermavenMessage → SupermavenMessage
  | 0, m => m
  | n + 1, m => .Passthrough (nestPassthrough n m)

/-- `m` is itself a `Passthrough` wrapper. -/
def SupermavenMessage.isPassthrough : SupermavenMessage → Bool
  | .Passthrough _ => true
  | _ => false

/-! ## State Synchronizer (modelled from the spec) -/

/-- The Synchronizer's error: `commit` called with an id that is not the
most recently allocated, still-uncommitted one. -/
inductive SyncError where
  | StaleOrUnknownStateId : SyncError
deriving Repr, DecidableEq

/-- Modelled from the spec: the State Synchronizer is not among the
sources (§4.1 of the spec describes it).  It owns the authoritative
current state id, a counter from which fresh ids are allocated, and the
single in-flight (allocated but uncommitted) id: a second `begin_update`
before a `commit` supersedes the first. -/
structure Synchronizer where
  nextId : Nat
  currentId : Option Nat
  pending : Option Nat
deriving Repr, DecidableEq

/-- Modelled from the spec: a fresh Synchronizer with no state committed
and nothing in flight. -/
def Synchronizer.init : Synchronizer :=
  { nextId := 0, currentId := none, pending := none }

/-- Modelled from the spec: `begin_update` allocates a fresh id strictly
greater than every previously allocated id and records it as the sole
in-flight id (superseding any earlier uncommitted allocation); it does not
yet make it current. -/
def beginUpdate (s : Synchronizer) : Nat × Synchronizer :=
  (s.nextId, { nextId := s.nextId + 1, currentId := s.currentId, pending := some s.nextId })

/-- Modelled from the spec: `commit(batch)` validates that `batch.new_id`
is the in-flight id allocated by the latest `begin_update` and not yet
committed; on success it makes that id current and returns the serialized
outbound `StateUpdateMessage`; otherwise it fails with
`StaleOrUnknownStateId` and leaves the state unchanged. -/
def commit (s : Synchronizer) (newId : Nat) (updates : List StateUpdate) :
    Except SyncError Json × Synchronizer :=
  if s.pending = some newId then
    (.ok (encodeStateUpdateMessage ⟨.StateUpdate, toString newId, updates⟩),
     { nextId := s.nextId, currentId := some newId, pending := none })
  else
    (.error .StaleOrUnknownStateId, s)

/-- Run `n` consecutive `begin_update` calls (discarding the returned
ids, which are `s.nextId, s.nextId + 1, …, s.nextId + n - 1`). -/
def beginN : Nat → Synchronizer → Synchronizer
  | 0, s => s
  | n + 1, s => beginN n (beginUpdate s).2

/-! ## Helper lemmas -/

lemma decodeStateUpdate_encode (u : StateUpdate) :
    decodeStateUpdate (encodeStateUpdate u) = .ok u := by
  cases u <;> rfl

lemma decodeListWith_stateUpdate (l : List StateUpdate) :
    decodeListWith decodeStateUpdate (l.map encodeStateUpdate) = .ok l := by
  induction l with
  | nil => rfl
  | cons u us ih =>
    simp [decodeListWith, decodeStateUpdate_encode u, ih, Bind.bind, Except.bind]

lemma decodeStateUpdateMessage_encode (m : StateUpdateMessage) :
    decodeStateUpdateMessage (encodeStateUpdateMessage m) = .ok m := by
  obtain ⟨k, nid, ups⟩ := m
  cases k
  simp [encodeStateUpdateMessage, decodeStateUpdateMessage, encodeStateUpdateKind,
    decodeStateUpdateKind, getStr, getField, decodeListWith_stateUpdate,
    Bind.bind, Except.bind]

lemma decodeResponseItem_encode (i : ResponseItem) :
    decodeResponseItem (encodeResponseItem i) = .ok i := by
  cases i <;> rfl

lemma decodeListWith_responseItem (l : List ResponseItem) :
    decodeListWith decodeResponseItem (l.map encodeResponseItem) = .ok l := by
  induction l with
  | nil => rfl
  | cons i is ih =>
    simp [decodeListWith, decodeResponseItem_encode i, ih, Bind.bind, Except.bind]

lemma decodeMsgStep_unknown (recur : Json → Except DecodeError SupermavenMessage)
    (fields : List (String × Json)) (tag : String)
    (hf : getField fields "kind" = some (.str tag))
    (hmem : tag ∉ supermavenKinds) :
    decodeMsgStep recur (.obj fields) = .error (.unknownMessageKind tag) := by
  simp [decodeMsgStep, hf, hmem]

lemma decodeSupermavenMessage_eq (j : Json) :
    decodeSupermavenMessage j = decodeMsgStep (decodeSupermavenMessageFuel 127) j := rfl

lemma decodeMsgStep_ok_tag (recur : Json → Except DecodeError SupermavenMessage)
    (j : Json) (m : SupermavenMessage) (h : decodeMsgStep recur j = .ok m) :
    ∃ tag, kindTag j = some tag ∧ tag ∈ supermavenKinds := by
  cases j with
  | obj fields =>
    cases hf : getField fields "kind" with
    | none => simp [decodeMsgStep, hf] at h
    | some v =>
      cases v with
      | str tag =>
        by_cases hm : tag ∈ supermavenKinds
        · exact ⟨tag, by simp [kindTag, hf], hm⟩
        · simp [decodeMsgStep, hf, hm] at h
      | null => simp [decodeMsgStep, hf] at h
      | bool b => simp [decodeMsgStep, hf] at h
      | num n => simp [decodeMsgStep, hf] at h
      | arr xs => simp [decodeMsgStep, hf] at h
      | obj f => simp [decodeMsgStep, hf] at h
  | null => simp [decodeMsgStep] at h
  | bool b => simp [decodeMsgStep] at h
  | num n => simp [decodeMsgStep] at h
  | str s => simp [decodeMsgStep] at h
  | arr xs => simp [decodeMsgStep] at h

lemma beginN_succ (n : Nat) : ∀ s : Synchronizer,
    beginN (n + 1) s =
      { nextId := s.nextId + n + 1, currentId := s.currentId,
        pending := some (s.nextId + n) } := by
  induction n with
  | zero => intro s; rfl
  | succ k ih =>
    intro s
    show beginN (k + 1) (beginUpdate s).2 = _
    rw [ih ((beginUpdate s).2)]
    simp only [beginUpdate, Synchronizer.mk.injEq, Option.some.injEq]
    refine ⟨by omega, trivial, by omega⟩

/-! ## Claims -/

/-- C1: serializing any `StateUpdateMessage` yields a JSON object whose
`kind` field is the literal string `"state_update"` alongside `new_id` and
`updates`, and every element of `updates` serializes as an object tagged
`"kind":"file_update"` with `path`/`content` or
`"kind":"cursor_position_update"` with `path`/`offset`. -/
theorem c1_state_update_message_shape (m : StateUpdateMessage) :
    encodeStateUpdateMessage m =
      .obj [("kind", .str "state_update"),
            ("new_id", .str m.new_id),
            ("updates", .arr (m.updates.map encodeStateUpdate))] ∧
    ∀ u ∈ m.updates,
      (∃ p c, encodeStateUpdate u =
        .obj [("kind", .str "file_update"), ("path", .str p), ("content", .str c)]) ∨
      (∃ (p : String) (o : Nat), encodeStateUpdate u =
        .obj [("kind", .str "cursor_position_update"), ("path", .str p), ("offset", .num o)]) := by
  constructor
  · obtain ⟨k, nid, ups⟩ := m
    cases k
    rfl
  · intro u _
    cases u with
    | FileUpdate f => exact .inl ⟨f.path, f.content, rfl⟩
    | CursorPositionUpdate c => exact .inr ⟨c.path, c.offset, rfl⟩

theorem c1_state_update_message_shape_witness :
    encodeStateUpdateMessage ⟨.StateUpdate, "id7", [.FileUpdate ⟨"a.rs", "fn"⟩]⟩ =
      .obj [("kind", .str "state_update"),
            ("new_id", .str "id7"),
            ("updates", .arr [encodeStateUpdate (.FileUpdate ⟨"a.rs", "fn"⟩)])] ∧
    ((∃ p c, encodeStateUpdate (StateUpdate.FileUpdate ⟨"a.rs", "fn"⟩) =
        .obj [("kind", .str "file_update"), ("path", .str p), ("content", .str c)]) ∨
     (∃ (p : String) (o : Nat), encodeStateUpdate (StateUpdate.FileUpdate ⟨"a.rs", "fn"⟩) =
        .obj [("kind", .str "cursor_position_update"), ("path", .str p), ("offset", .num o)])) :=
  ⟨(c1_state_update_message_shape ⟨.StateUpdate, "id7", [.FileUpdate ⟨"a.rs", "fn"⟩]⟩).1,
   (c1_state_update_message_shape ⟨.StateUpdate, "id7", [.FileUpdate ⟨"a.rs", "fn"⟩]⟩).2
     (.FileUpdate ⟨"a.rs", "fn"⟩) (by simp)⟩

/-- C2: encoding then decoding a `StateUpdateMessage` whose updates are two
`FileUpdate`s and one `CursorPositionUpdate` yields the original message
(field-for-field round trip). -/
theorem c2_roundtrip_two_files_one_cursor (m : StateUpdateMessage)
    (f1 f2 : FileUpdateMessage) (c : CursorPositionUpdateMessage)
    (_h : m.updates = [.FileUpdate f1, .FileUpdate f2, .CursorPositionUpdate c]) :
    decodeStateUpdateMessage (encodeStateUpdateMessage m) = .ok m :=
  decodeStateUpdateMessage_encode m

theorem c2_roundtrip_witness :
    decodeStateUpdateMessage (encodeStateUpdateMessage
      ⟨.StateUpdate, "s2",
       [.FileUpdate ⟨"a", "x"⟩, .FileUpdate ⟨"b", "y"⟩, .CursorPositionUpdate ⟨"a", 3⟩]⟩) =
    .ok ⟨.StateUpdate, "s2",
         [.FileUpdate ⟨"a", "x"⟩, .FileUpdate ⟨"b", "y"⟩, .CursorPositionUpdate ⟨"a", 3⟩]⟩ :=
  c2_roundtrip_two_files_one_cursor _ ⟨"a", "x"⟩ ⟨"b", "y"⟩ ⟨"a", 3⟩ rfl

/-- C3: an inbound JSON object whose `kind` tag is not one of the nine
recognized `SupermavenMessage` tags fails decoding with the
unknown-message-kind error carrying that tag — it neither decodes
successfully nor is silently dropped. -/
theorem c3_unknown_kind_fails (fields : List (String × Json)) (tag : String)
    (hf : getField fields "kind" = some (.str tag))
    (hmem : tag ∉ supermavenKinds) :
    decodeSupermavenMessage (.obj fields) = .error (.unknownMessageKind tag) := by
  have hstep : decodeSupermavenMessage (.obj fields) =
      decodeMsgStep (decodeSupermavenMessageFuel 127) (.obj fields) := rfl
  rw [hstep]
  exact decodeMsgStep_unknown _ fields tag hf hmem

theorem c3_unknown_kind_fails_witness :
    getField [("kind", Json.str "bogus")] "kind" = some (.str "bogus") ∧
    "bogus" ∉ supermavenKinds ∧
    decodeSupermavenMessage (.obj [("kind", .str "bogus")]) =
      .error (.unknownMessageKind "bogus") :=
  ⟨rfl, by decide, c3_unknown_kind_fails _ _ rfl (by decide)⟩

/-- C4: `try_get_user` on any response with a 4xx client-error status
returns `Ok(SupermavenUser::NotFound)`, whatever the body holds. -/
theorem c4_client_error_means_not_found (resp : HttpResponse)
    (h1 : 400 ≤ resp.status) (h2 : resp.status < 500) :
    tryGetUser resp = .ok .NotFound := by
  simp [tryGetUser, isClientError, h1, h2]

theorem c4_client_error_means_not_found_witness :
    400 ≤ 404 ∧ 404 < 500 ∧
    tryGetUser ⟨404, .notJson⟩ = .ok .NotFound :=
  ⟨by decide, by decide,
   c4_client_error_means_not_found ⟨404, .notJson⟩ (by decide) (by decide)⟩

/-- C5: with the recursion cap of 16, unwrapping a `Passthrough` chain of
nesting depth 17 fails with `PassthroughTooDeep`, while a chain of depth 16
unwraps successfully to the innermost message. -/
theorem c5_passthrough_depth_cap (m : SupermavenMessage)
    (h : m.isPassthrough = false) :
    unwrapPassthrough (nestPassthrough 17 m) = .error .passthroughTooDeep ∧
    unwrapPassthrough (nestPassthrough 16 m) = .ok m := by
  constructor
  · rfl
  · cases m <;> first
      | rfl
      | simp [SupermavenMessage.isPassthrough] at h

theorem c5_passthrough_depth_cap_witness :
    SupermavenMessage.ActivationSuccess.isPassthrough = false ∧
    unwrapPassthrough (nestPassthrough 17 .ActivationSuccess) =
      .error .passthroughTooDeep ∧
    unwrapPassthrough (nestPassthrough 16 .ActivationSuccess) =
      .ok .ActivationSuccess :=
  ⟨rfl, (c5_passthrough_depth_cap .ActivationSuccess rfl).1,
   (c5_passthrough_depth_cap .ActivationSuccess rfl).2⟩

/-- C6: inbound decoding dispatches on the `kind` tag over exactly the
nine `SupermavenMessage` variant tags: every successful decode carries one
of the nine recognized tags; eight of the nine tags are realized by
concrete successful decodes, and the ninth (`passthrough`) is likewise
dispatched — not an unknown tag — though no input completes it, since its
content's own `kind` is either missing or a rejected duplicate; a decoded
`response` carries its `state_id` and `items`; and `ResponseItem` decoding
accepts exactly the wire forms of the five variants `Text`, `Del`,
`Dedent`, `End`, `Barrier` (single-key string objects for the newtype
variants; bare string or single-key null object for the unit variants). -/
theorem c6_nine_variant_dispatch :
    (∀ j m, decodeSupermavenMessage j = .ok m →
      ∃ tag, kindTag j = some tag ∧ tag ∈ supermavenKinds) ∧
    (decodeSupermavenMessage (.obj [("kind", .str "response"),
        ("state_id", .str "s0"), ("items", .arr [])]) = .ok (.Response ⟨"s0", []⟩) ∧
     decodeSupermavenMessage (.obj [("kind", .str "metadata")]) =
       .ok (.Metadata ⟨none⟩) ∧
     decodeSupermavenMessage (.obj [("kind", .str "apology")]) =
       .ok (.Apology none) ∧
     decodeSupermavenMessage (.obj [("kind", .str "activation_request"),
        ("activate_url", .str "u")]) = .ok (.ActivationRequest "u") ∧
     decodeSupermavenMessage (.obj [("kind", .str "activation_success")]) =
       .ok .ActivationSuccess ∧
     decodeSupermavenMessage (.obj [("kind", .str "popup"),
        ("message", .str "m"), ("actions", .arr [])]) = .ok (.Popup ⟨"m", []⟩) ∧
     decodeSupermavenMessage (.obj [("kind", .str "task_status"),
        ("task", .str "t"), ("status", .str "Complete")]) =
       .ok (.TaskStatus ⟨"t", .Complete, none⟩) ∧
     decodeSupermavenMessage (.obj [("kind", .str "active_repo"),
        ("repo_simple_name", .str "r")]) = .ok (.ActiveRepo ⟨"r"⟩)) ∧
    (decodeSupermavenMessage (.obj [("kind", .str "passthrough")]) =
       .error .shapeMismatch ∧
     decodeSupermavenMessage (.obj [("kind", .str "passthrough"),
        ("kind", .str "activation_success")]) = .error (.duplicateField "kind")) ∧
    (∀ sid items, decodeSupermavenMessage (.obj [("kind", .str "response"),
        ("state_id", .str sid), ("items", .arr (items.map encodeResponseItem))]) =
      .ok (.Response ⟨sid, items⟩)) ∧
    ((∀ s, decodeResponseItem (.obj [("Text", .str s)]) = .ok (.Text s)) ∧
     (∀ s, decodeResponseItem (.obj [("Del", .str s)]) = .ok (.Del s)) ∧
     (∀ s, decodeResponseItem (.obj [("Dedent", .str s)]) = .ok (.Dedent s)) ∧
     decodeResponseItem (.str "End") = .ok .End ∧
     decodeResponseItem (.obj [("End", .null)]) = .ok .End ∧
     decodeResponseItem (.str "Barrier") = .ok .Barrier ∧
     decodeResponseItem (.obj [("Barrier", .null)]) = .ok .Barrier) ∧
    (∀ j, (∃ x, decodeResponseItem j = .ok x) ↔
      ((∃ s, j = .obj [("Text", .str s)]) ∨
       (∃ s, j = .obj [("Del", .str s)]) ∨
       (∃ s, j = .obj [("Dedent", .str s)]) ∨
       j = .str "End" ∨ j = .obj [("End", .null)] ∨
       j = .str "Barrier" ∨ j = .obj [("Barrier", .null)])) := by
  refine ⟨?_, ⟨rfl, rfl, rfl, rfl, rfl, rfl, rfl, rfl⟩, ⟨rfl, rfl⟩, ?_,
    ⟨fun _ => rfl, fun _ => rfl, fun _ => rfl, rfl, rfl, rfl, rfl⟩, ?_⟩
  · intro j m h
    rw [decodeSupermavenMessage_eq] at h
    exact decodeMsgStep_ok_tag _ j m h
  · intro sid items
    rw [decodeSupermavenMessage_eq]
    show ((decodeListWith decodeResponseItem (items.map encodeResponseItem)).bind
      fun its => (Except.ok (SupermavenResponse.mk sid its))).map SupermavenMessage.Response =
      .ok (.Response ⟨sid, items⟩)
    rw [decodeListWith_responseItem]
    rfl
  · intro j
    constructor
    · rintro ⟨x, hx⟩
      cases j with
      | str s =>
        by_cases h1 : s = "End"
        · subst h1
          exact Or.inr (Or.inr (Or.inr (Or.inl rfl)))
        · by_cases h2 : s = "Barrier"
          · subst h2
            exact Or.inr (Or.inr (Or.inr (Or.inr (Or.inr (Or.inl rfl)))))
          · by_cases h3 : s = "Text" ∨ s = "Del" ∨ s = "Dedent"
            · simp [decodeResponseItem, h1, h2, h3] at hx
            · simp [decodeResponseItem, h1, h2, h3] at hx
      | obj fields =>
        cases fields with
        | nil => simp [decodeResponseItem] at hx
        | cons kv rest =>
          obtain ⟨k, v⟩ := kv
          cases rest with
          | cons kv2 rest2 => simp [decodeResponseItem] at hx
          | nil =>
            by_cases h1 : k = "Text"
            · subst h1
              cases v <;> simp [decodeResponseItem, asStr, Except.map] at hx
              exact Or.inl ⟨_, rfl⟩
            · by_cases h2 : k = "Del"
              · subst h2
                cases v <;> simp [decodeResponseItem, asStr, Except.map, h1] at hx
                exact Or.inr (Or.inl ⟨_, rfl⟩)
              · by_cases h3 : k = "Dedent"
                · subst h3
                  cases v <;> simp [decodeResponseItem, asStr, Except.map, h1, h2] at hx
                  exact Or.inr (Or.inr (Or.inl ⟨_, rfl⟩))
                · by_cases h4 : k = "End"
                  · subst h4
                    cases v <;> simp [decodeResponseItem, h1, h2, h3] at hx
                    exact Or.inr (Or.inr (Or.inr (Or.inr (Or.inl rfl))))
                  · by_cases h5 : k = "Barrier"
                    · subst h5
                      cases v <;> simp [decodeResponseItem, h1, h2, h3, h4] at hx
                      exact Or.inr (Or.inr (Or.inr (Or.inr (Or.inr (Or.inr rfl)))))
                    · simp [decodeResponseItem, h1, h2, h3, h4, h5] at hx
      | null => simp [decodeResponseItem] at hx
      | bool b => simp [decodeResponseItem] at hx
      | num n => simp [decodeResponseItem] at hx
      | arr xs => simp [decodeResponseItem] at hx
    · rintro (⟨s, rfl⟩ | ⟨s, rfl⟩ | ⟨s, rfl⟩ | rfl | rfl | rfl | rfl)
      · exact ⟨.Text s, rfl⟩
      · exact ⟨.Del s, rfl⟩
      · exact ⟨.Dedent s, rfl⟩
      · exact ⟨.End, rfl⟩
      · exact ⟨.End, rfl⟩
      · exact ⟨.Barrier, rfl⟩
      · exact ⟨.Barrier, rfl⟩

theorem c6_nine_variant_dispatch_witness :
    (∃ tag, kindTag (.obj [("kind", Json.str "activation_success")]) = some tag ∧
      tag ∈ supermavenKinds) ∧
    decodeSupermavenMessage (.obj [("kind", .str "response"),
      ("state_id", .str "s"), ("items", .arr [Json.str "End"])]) =
      .ok (.Response ⟨"s", [.End]⟩) ∧
    (∃ x, decodeResponseItem (.obj [("Text", .str "hi")]) = .ok x) :=
  ⟨c6_nine_variant_dispatch.1 _ .ActivationSuccess rfl,
   c6_nine_variant_dispatch.2.2.2.1 "s" [.End],
   (c6_nine_variant_dispatch.2.2.2.2.2 (.obj [("Text", .str "hi")])).2 (.inl ⟨"hi", rfl⟩)⟩

/-- C7: field-name casing differs per message family and is reproduced
exactly: the admin API `CreateApiKeyResponse` decodes the camelCase wire
field `apiKey` into `api_key` (and rejects a snake_case `api_key` field),
while the protocol message `FileUpdateMessage` uses the snake_case wire
fields `path` and `content`. -/
theorem c7_field_name_casing :
    (∀ k, decodeCreateApiKeyResponse (.obj [("apiKey", .str k)]) = .ok ⟨k⟩) ∧
    (∀ k, decodeCreateApiKeyResponse (.obj [("api_key", .str k)]) =
      .error .shapeMismatch) ∧
    (∀ m : FileUpdateMessage, encodeFileUpdateMessage m =
      .obj [("path", .str m.path), ("content", .str m.content)]) ∧
    (∀ p c, decodeFileUpdateMessage (.obj [("path", .str p), ("content", .str c)]) =
      .ok ⟨p, c⟩) :=
  ⟨fun _ => rfl, fun _ => rfl, fun _ => rfl, fun _ _ => rfl⟩

/-- C8: after `n + 1` consecutive `begin_update` calls with no intervening
`commit`, `commit` succeeds exactly on the most recently allocated id
(making it current), and any other id — earlier allocations and ids never
allocated alike — is rejected with `StaleOrUnknownStateId`, leaving the
Synchronizer (hence its current id) unchanged. -/
theorem c8_commit_accepts_latest_only (s : Synchronizer) (n : Nat)
    (updates : List StateUpdate) :
    (∃ js, commit (beginN (n + 1) s) (s.nextId + n) updates =
      (.ok js, { nextId := s.nextId + n + 1, currentId := some (s.nextId + n),
                 pending := none })) ∧
    (∀ k, k ≠ s.nextId + n →
      commit (beginN (n + 1) s) k updates =
        (.error .StaleOrUnknownStateId, beginN (n + 1) s)) := by
  constructor
  · refine ⟨encodeStateUpdateMessage ⟨.StateUpdate, toString (s.nextId + n), updates⟩, ?_⟩
    rw [beginN_succ]
    simp [commit]
  · intro k hk
    rw [beginN_succ]
    simp [commit, Ne.symm hk]

theorem c8_commit_accepts_latest_only_witness :
    (∃ js, commit (beginN (1 + 1) Synchronizer.init) (Synchronizer.init.nextId + 1) [] =
      (.ok js, { nextId := Synchronizer.init.nextId + 1 + 1,
                 currentId := some (Synchronizer.init.nextId + 1), pending := none })) ∧
    (0 : Nat) ≠ Synchronizer.init.nextId + 1 ∧
    commit (beginN (1 + 1) Synchronizer.init) 0 [] =
      (.error .StaleOrUnknownStateId, beginN (1 + 1) Synchronizer.init) :=
  ⟨(c8_commit_accepts_latest_only Synchronizer.init 1 []).1,
   by decide,
   (c8_commit_accepts_latest_only Synchronizer.init 1 []).2 0 (by decide)⟩

/-- C9: `try_create_api_key` never inspects the HTTP status: its result
depends only on the body; a body decoding as a `CreateApiKeyResponse`
yields `Ok` whatever the status, and any other body yields a parse error,
never a status-derived error. -/
theorem c9_create_key_ignores_status :
    (∀ s1 s2 b, tryCreateApiKey ⟨s1, b⟩ = tryCreateApiKey ⟨s2, b⟩) ∧
    (∀ status j r, decodeCreateApiKeyResponse j = .ok r →
      tryCreateApiKey ⟨status, .json j⟩ = .ok r) ∧
    (∀ status j e, decodeCreateApiKeyResponse j = .error e →
      tryCreateApiKey ⟨status, .json j⟩ = .error .parseError) ∧
    (∀ status, tryCreateApiKey ⟨status, .notJson⟩ = .error .parseError) := by
  refine ⟨fun s1 s2 b => rfl, ?_, ?_, fun status => rfl⟩
  · intro status j r h
    simp [tryCreateApiKey, h]
  · intro status j e h
    simp [tryCreateApiKey, h]

theorem c9_create_key_ignores_status_witness :
    decodeCreateApiKeyResponse (.obj [("apiKey", .str "k")]) = .ok ⟨"k"⟩ ∧
    tryCreateApiKey ⟨500, .json (.obj [("apiKey", .str "k")])⟩ = .ok ⟨"k"⟩ ∧
    decodeCreateApiKeyResponse (.obj [("message", .str "oops")]) =
      .error .shapeMismatch ∧
    tryCreateApiKey ⟨200, .json (.obj [("message", .str "oops")])⟩ =
      .error .parseError :=
  ⟨rfl,
   c9_create_key_ignores_status.2.1 500 _ ⟨"k"⟩ rfl,
   rfl,
   c9_create_key_ignores_status.2.2.1 200 _ .shapeMismatch rfl⟩

/-- C10: `ResponseItem` is externally tagged with PascalCase variant names,
not `kind`-tagged: `Text`/`Del`/`Dedent` serialize as single-key objects
`{"Text": s}` etc., the unit variants `End`/`Barrier` as the bare strings
`"End"`/`"Barrier"`, and decoding inverts this encoding. -/
theorem c10_response_item_external_tagging :
    (∀ s, encodeResponseItem (.Text s) = .obj [("Text", .str s)]) ∧
    (∀ s, encodeResponseItem (.Del s) = .obj [("Del", .str s)]) ∧
    (∀ s, encodeResponseItem (.Dedent s) = .obj [("Dedent", .str s)]) ∧
    encodeResponseItem .End = .str "End" ∧
    encodeResponseItem .Barrier = .str "Barrier" ∧
    (∀ item, decodeResponseItem (encodeResponseItem item) = .ok item) :=
  ⟨fun _ => rfl, fun _ => rfl, fun _ => rfl, rfl, rfl, decodeResponseItem_encode⟩

end Supermaven
